import Mathlib

/-
Verification of the record cache in `AYESHA/core/mango_saver.py`.

The module is a deduplicating write-through cache in front of MongoDB:
`save_song` / `save_video` insert a document and, when the insert raises,
re-read the store by key; `get_track_by_youtube_id` /
`get_video_by_id_with_cache` look a record up and, when it is missing and a
fetcher is supplied, fetch, normalize and save it.

Shallow embedding choices:
- Python/BSON values become `Val` (None, strings, ObjectIds, datetimes);
  Python dicts become association lists `Doc` with first-match lookup.
- A Mongo collection is a `List Doc`; `find_one` with the single-key
  equality filter used by the source is `List.find?` on the key field;
  `insert_one` enforces the unique index on the key field and can also be
  made to fail by an exogenous `fault` flag, modelling any non-duplicate
  store failure (network, validation, ...).  `insert_one` stores the
  document with the assigned `_id`, as the driver does.
- Python truthiness (`if found:`, `x or y`) is modelled explicitly:
  `None`, the empty string and the empty dict are falsy.
- The high-level getters return, besides the Python result
  (`Except PyExc (Option Doc)`), the resulting store and the number of
  times the fetch callback was invoked.
-/

namespace MangoSaver

/-- Python/BSON values occurring in this module: `None`, strings,
store-assigned ObjectIds, and datetimes (modelled as a Nat tick). -/
inductive Val where
  | none
  | str (s : String)
  | oid (n : Nat)
  | time (t : Nat)
  deriving DecidableEq, Repr

/-- Python truthiness of a value: `None` and `""` are falsy; ObjectIds and
datetimes are always truthy. -/
def truthy : Val → Bool
  | Val.none => false
  | Val.str s => !s.isEmpty
  | Val.oid _ => true
  | Val.time _ => true

/-- A Python dict / BSON document: key-value pairs, first match wins. -/
abbrev Doc := List (String × Val)

/-- `d.get(key)` — `some v` when the key is present, `none` when absent. -/
def dget : Doc → String → Option Val
  | [], _ => Option.none
  | (k, v) :: rest, key => if k = key then some v else dget rest key

/-- `d.get(key, default)` — Python returns the stored value (even a falsy
one) whenever the key is present. -/
def dgetD (d : Doc) (key : String) (default : Val) : Val :=
  (dget d key).getD default

/-- `d[key] = v` — replace the value when the key is present, else append
(Python dicts keep insertion order, new keys go last). -/
def dset : Doc → String → Val → Doc
  | [], key, v => [(key, v)]
  | (k, w) :: rest, key, v =>
      if k = key then (k, v) :: rest else (k, w) :: dset rest key v

/-- Python `x or y` where `x` is the result of a `dict.get` (so `x` may be
missing, i.e. `None`): the left operand when truthy, else the right. -/
def pyOr (x : Option Val) (y : Val) : Val :=
  match x with
  | some v => if truthy v then v else y
  | Option.none => y

/-- How an `insert_one` call can fail: the unique-index violation
(`DuplicateKeyError`) or any other store failure (network, validation —
injected by the `fault` flag). -/
inductive InsertErr where
  | duplicateKey
  | otherFailure
  deriving DecidableEq, Repr

/-- `coll.find_one({field: v})`: the first document whose `field` equals
`v`. -/
def find_one (coll : List Doc) (field : String) (v : Val) : Option Doc :=
  coll.find? (fun d => decide (dget d field = some v))

/-- `coll.insert_one(doc)` under a unique index on `keyField`.  A `fault`
models any exogenous non-duplicate failure; otherwise the insert is
rejected exactly when some stored document already has the same value of
the key field.  On success the stored document carries the assigned
`_id`. -/
def insert_one (coll : List Doc) (keyField : String) (doc : Doc)
    (newId : Nat) (fault : Bool) : Except InsertErr (Doc × List Doc) :=
  if fault then .error .otherFailure
  else if coll.any (fun d => decide (dget d keyField = dget doc keyField)) then
    .error .duplicateKey
  else
    let stored := dset doc "_id" (Val.oid newId)
    .ok (stored, coll ++ [stored])

/-- The document `save_song` builds before inserting (source order of the
fields). -/
def song_doc (youtube_id title thumbnail singer : Val) (now : Nat) : Doc :=
  [("youtube_id", youtube_id), ("title", title), ("thumbnail", thumbnail),
   ("singer", singer), ("type", Val.str "song"), ("saved_at", Val.time now)]

/-- The document `save_video` builds before inserting. -/
def video_doc (video_id title thumbnail singer url : Val) (now : Nat) : Doc :=
  [("video_id", video_id), ("title", title), ("thumbnail", thumbnail),
   ("singer", singer), ("url", url), ("type", Val.str "video"),
   ("saved_at", Val.time now)]

/-- `save_song`: try to insert; on ANY exception from the insert, re-read
by `youtube_id` and return whatever is found (possibly Python `None`,
i.e. `Option.none`).  Returns the Python result and the resulting songs
collection. -/
def save_song (st : List Doc) (fault : Bool)
    (youtube_id title thumbnail singer : Val) (now newId : Nat) :
    Option Doc × List Doc :=
  let doc := song_doc youtube_id title thumbnail singer now
  match insert_one st "youtube_id" doc newId fault with
  | .ok (stored, st') => (some stored, st')
  | .error _ => (find_one st "youtube_id" youtube_id, st)

/-- `save_video`: same pattern on the videos collection, keyed by
`video_id`. -/
def save_video (st : List Doc) (fault : Bool)
    (video_id title thumbnail singer url : Val) (now newId : Nat) :
    Option Doc × List Doc :=
  let doc := video_doc video_id title thumbnail singer url now
  match insert_one st "video_id" doc newId fault with
  | .ok (stored, st') => (some stored, st')
  | .error _ => (find_one st "video_id" video_id, st)

/-- `get_song_by_youtube_id`: plain lookup, no writes. -/
def get_song_by_youtube_id (st : List Doc) (youtube_id : String) : Option Doc :=
  find_one st "youtube_id" (Val.str youtube_id)

/-- `get_video_by_video_id`: plain lookup, no writes. -/
def get_video_by_video_id (st : List Doc) (video_id : String) : Option Doc :=
  find_one st "video_id" (Val.str video_id)

/-- Python exceptions raised by this module. -/
inductive PyExc where
  | lookupError (msg : String)
  deriving DecidableEq, Repr

/-- `fetched.get("youtube_id") or youtube_id` (and the `video_id`
analogue): the raw key field when present AND truthy, else the input
key. -/
def norm_key (fetched : Doc) (field : String) (fallback : String) : Val :=
  pyOr (dget fetched field) (Val.str fallback)

/-- `fetched.get("title", "Unknown Title")`. -/
def norm_title (fetched : Doc) : Val :=
  dgetD fetched "title" (Val.str "Unknown Title")

/-- `fetched.get("thumbnail", "")`. -/
def norm_thumbnail (fetched : Doc) : Val :=
  dgetD fetched "thumbnail" (Val.str "")

/-- `fetched.get("singer", fetched.get("artist", "Unknown"))`. -/
def norm_singer (fetched : Doc) : Val :=
  dgetD fetched "singer" (dgetD fetched "artist" (Val.str "Unknown"))

/-- `fetched.get("url", "")`. -/
def norm_url (fetched : Doc) : Val :=
  dgetD fetched "url" (Val.str "")

/-- The part of `get_track_by_youtube_id` after the lookup missed (the
found value was `None` or a falsy empty dict): raise `LookupError` when no
fetcher, else fetch, normalize and save.  The final `Nat` counts fetcher
invocations. -/
def song_fetch_path (st : List Doc) (fetch_if_missing : Option (String → Doc))
    (fault : Bool) (youtube_id : String) (now newId : Nat) :
    Except PyExc (Option Doc) × List Doc × Nat :=
  match fetch_if_missing with
  | Option.none =>
      (.error (.lookupError "Song not found in DB and no fetch_if_missing provided"),
       st, 0)
  | some fetch =>
      let fetched := fetch youtube_id
      let yid := norm_key fetched "youtube_id" youtube_id
      let title := norm_title fetched
      let thumbnail := norm_thumbnail fetched
      let singer := norm_singer fetched
      let res := save_song st fault yid title thumbnail singer now newId
      (.ok res.1, res.2, 1)

/-- `get_track_by_youtube_id`: return the stored record when the lookup
result is truthy (a non-empty dict), else take the fetch path. -/
def get_track_by_youtube_id (st : List Doc)
    (fetch_if_missing : Option (String → Doc)) (fault : Bool)
    (youtube_id : String) (now newId : Nat) :
    Except PyExc (Option Doc) × List Doc × Nat :=
  match get_song_by_youtube_id st youtube_id with
  | some d =>
      if d.isEmpty then song_fetch_path st fetch_if_missing fault youtube_id now newId
      else (.ok (some d), st, 0)
  | Option.none => song_fetch_path st fetch_if_missing fault youtube_id now newId

/-- The fetch path of `get_video_by_id_with_cache`. -/
def video_fetch_path (st : List Doc) (fetch_if_missing : Option (String → Doc))
    (fault : Bool) (video_id : String) (now newId : Nat) :
    Except PyExc (Option Doc) × List Doc × Nat :=
  match fetch_if_missing with
  | Option.none =>
      (.error (.lookupError "Video not found in DB and no fetch_if_missing provided"),
       st, 0)
  | some fetch =>
      let fetched := fetch video_id
      let vid := norm_key fetched "video_id" video_id
      let title := norm_title fetched
      let thumbnail := norm_thumbnail fetched
      let singer := norm_singer fetched
      let url := norm_url fetched
      let res := save_video st fault vid title thumbnail singer url now newId
      (.ok res.1, res.2, 1)

/-- `get_video_by_id_with_cache`: same pattern as the song getter. -/
def get_video_by_id_with_cache (st : List Doc)
    (fetch_if_missing : Option (String → Doc)) (fault : Bool)
    (video_id : String) (now newId : Nat) :
    Except PyExc (Option Doc) × List Doc × Nat :=
  match get_video_by_video_id st video_id with
  | some d =>
      if d.isEmpty then video_fetch_path st fetch_if_missing fault video_id now newId
      else (.ok (some d), st, 0)
  | Option.none => video_fetch_path st fetch_if_missing fault video_id now newId

/-- Environmental invariant of MongoDB: every stored document carries an
`_id` field (so a document returned by `find_one` is never the falsy empty
dict). -/
def MongoWF (st : List Doc) : Prop :=
  ∀ d ∈ st, (dget d "_id").isSome = true

instance (st : List Doc) : Decidable (MongoWF st) := by
  unfold MongoWF; infer_instance

/-! ### Helper lemmas -/

lemma find_one_append (coll extra : List Doc) (field : String) (v : Val)
    (d : Doc) (h : find_one coll field v = some d) :
    find_one (coll ++ extra) field v = some d := by
  unfold find_one at h ⊢
  rw [List.find?_append, h]
  rfl

lemma find_one_none_not_any (coll : List Doc) (field : String) (v : Val)
    (h : find_one coll field v = Option.none) :
    coll.any (fun d => decide (dget d field = some v)) = false := by
  unfold find_one at h
  rw [List.find?_eq_none] at h
  rw [Bool.eq_false_iff]
  intro hany
  obtain ⟨x, hx, hpx⟩ := List.any_eq_true.mp hany
  exact h x hx hpx

lemma insert_one_ok_shape (coll : List Doc) (kf : String) (doc : Doc)
    (nid : Nat) (fault : Bool) (d : Doc) (coll' : List Doc)
    (h : insert_one coll kf doc nid fault = .ok (d, coll')) :
    d = dset doc "_id" (Val.oid nid) ∧ coll' = coll ++ [d] := by
  unfold insert_one at h
  split at h
  · exact absurd h (by simp)
  · split at h
    · exact absurd h (by simp)
    · simp only [Except.ok.injEq, Prod.mk.injEq] at h
      obtain ⟨hd, hc⟩ := h
      exact ⟨hd.symm, by rw [← hc, hd]⟩

lemma save_song_fault (st : List Doc) (yid t th s : Val) (now nid : Nat) :
    save_song st true yid t th s now nid = (find_one st "youtube_id" yid, st) := by
  simp [save_song, insert_one]

lemma save_video_fault (st : List Doc) (vid t th s u : Val) (now nid : Nat) :
    save_video st true vid t th s u now nid = (find_one st "video_id" vid, st) := by
  simp [save_video, insert_one]

lemma save_song_dup (st : List Doc) (yid t th s : Val) (now nid : Nat) (d : Doc)
    (h : find_one st "youtube_id" yid = some d) :
    save_song st false yid t th s now nid = (some d, st) := by
  have h' : st.find? (fun e => decide (dget e "youtube_id" = some yid)) = some d := h
  have hany : st.any (fun e => decide (dget e "youtube_id" = some yid)) = true := by
    rw [List.any_eq_true]
    have hp := List.find?_some h'
    exact ⟨d, List.mem_of_find?_eq_some h', hp⟩
  unfold save_song insert_one
  simp [song_doc, dget, hany, h]

lemma save_video_dup (st : List Doc) (vid t th s u : Val) (now nid : Nat) (d : Doc)
    (h : find_one st "video_id" vid = some d) :
    save_video st false vid t th s u now nid = (some d, st) := by
  have h' : st.find? (fun e => decide (dget e "video_id" = some vid)) = some d := h
  have hany : st.any (fun e => decide (dget e "video_id" = some vid)) = true := by
    rw [List.any_eq_true]
    have hp := List.find?_some h'
    exact ⟨d, List.mem_of_find?_eq_some h', hp⟩
  unfold save_video insert_one
  simp [video_doc, dget, hany, h]

lemma save_song_ok (st : List Doc) (yid t th s : Val) (now nid : Nat)
    (h : find_one st "youtube_id" yid = Option.none) :
    save_song st false yid t th s now nid =
      (some (dset (song_doc yid t th s now) "_id" (Val.oid nid)),
       st ++ [dset (song_doc yid t th s now) "_id" (Val.oid nid)]) := by
  have hany := find_one_none_not_any st "youtube_id" yid h
  unfold save_song insert_one
  simp [song_doc, dget, hany]

lemma save_video_ok (st : List Doc) (vid t th s u : Val) (now nid : Nat)
    (h : find_one st "video_id" vid = Option.none) :
    save_video st false vid t th s u now nid =
      (some (dset (video_doc vid t th s u now) "_id" (Val.oid nid)),
       st ++ [dset (video_doc vid t th s u now) "_id" (Val.oid nid)]) := by
  have hany := find_one_none_not_any st "video_id" vid h
  unfold save_video insert_one
  simp [video_doc, dget, hany]

lemma get_track_found (st : List Doc) (f? : Option (String → Doc)) (fault : Bool)
    (k : String) (now nid : Nat) (d : Doc)
    (h : find_one st "youtube_id" (Val.str k) = some d) (hne : d.isEmpty = false) :
    get_track_by_youtube_id st f? fault k now nid = (.ok (some d), st, 0) := by
  simp [get_track_by_youtube_id, get_song_by_youtube_id, h, hne]

lemma get_video_found (st : List Doc) (f? : Option (String → Doc)) (fault : Bool)
    (k : String) (now nid : Nat) (d : Doc)
    (h : find_one st "video_id" (Val.str k) = some d) (hne : d.isEmpty = false) :
    get_video_by_id_with_cache st f? fault k now nid = (.ok (some d), st, 0) := by
  simp [get_video_by_id_with_cache, get_video_by_video_id, h, hne]

lemma get_track_missing (st : List Doc) (f? : Option (String → Doc)) (fault : Bool)
    (k : String) (now nid : Nat)
    (h : find_one st "youtube_id" (Val.str k) = Option.none) :
    get_track_by_youtube_id st f? fault k now nid =
      song_fetch_path st f? fault k now nid := by
  simp [get_track_by_youtube_id, get_song_by_youtube_id, h]

lemma get_video_missing (st : List Doc) (f? : Option (String → Doc)) (fault : Bool)
    (k : String) (now nid : Nat)
    (h : find_one st "video_id" (Val.str k) = Option.none) :
    get_video_by_id_with_cache st f? fault k now nid =
      video_fetch_path st f? fault k now nid := by
  simp [get_video_by_id_with_cache, get_video_by_video_id, h]

lemma find_one_preserved_save_song (st : List Doc) (fault : Bool)
    (yid t th s : Val) (now nid : Nat) (field : String) (v : Val) (d : Doc)
    (h : find_one st field v = some d) :
    find_one (save_song st fault yid t th s now nid).2 field v = some d := by
  unfold save_song
  dsimp only
  cases hins : insert_one st "youtube_id" (song_doc yid t th s now) nid fault with
  | error e => simpa using h
  | ok p =>
    obtain ⟨stored, st'⟩ := p
    obtain ⟨_, hc⟩ := insert_one_ok_shape _ _ _ _ _ _ _ hins
    subst hc
    simpa using find_one_append _ _ _ _ _ h

lemma find_one_preserved_save_video (st : List Doc) (fault : Bool)
    (vid t th s u : Val) (now nid : Nat) (field : String) (v : Val) (d : Doc)
    (h : find_one st field v = some d) :
    find_one (save_video st fault vid t th s u now nid).2 field v = some d := by
  unfold save_video
  dsimp only
  cases hins : insert_one st "video_id" (video_doc vid t th s u now) nid fault with
  | error e => simpa using h
  | ok p =>
    obtain ⟨stored, st'⟩ := p
    obtain ⟨_, hc⟩ := insert_one_ok_shape _ _ _ _ _ _ _ hins
    subst hc
    simpa using find_one_append _ _ _ _ _ h

lemma find_one_preserved_song_path (st : List Doc) (f? : Option (String → Doc))
    (fault : Bool) (k : String) (now nid : Nat) (field : String) (v : Val) (d : Doc)
    (h : find_one st field v = some d) :
    find_one (song_fetch_path st f? fault k now nid).2.1 field v = some d := by
  unfold song_fetch_path
  cases f? with
  | none => simpa using h
  | some f => exact find_one_preserved_save_song _ _ _ _ _ _ _ _ _ _ _ h

lemma find_one_preserved_video_path (st : List Doc) (f? : Option (String → Doc))
    (fault : Bool) (k : String) (now nid : Nat) (field : String) (v : Val) (d : Doc)
    (h : find_one st field v = some d) :
    find_one (video_fetch_path st f? fault k now nid).2.1 field v = some d := by
  unfold video_fetch_path
  cases f? with
  | none => simpa using h
  | some f => exact find_one_preserved_save_video _ _ _ _ _ _ _ _ _ _ _ _ h

lemma find_one_preserved_get_track (st : List Doc) (f? : Option (String → Doc))
    (fault : Bool) (k : String) (now nid : Nat) (field : String) (v : Val) (d : Doc)
    (h : find_one st field v = some d) :
    find_one (get_track_by_youtube_id st f? fault k now nid).2.1 field v = some d := by
  unfold get_track_by_youtube_id get_song_by_youtube_id
  cases hf : find_one st "youtube_id" (Val.str k) with
  | none => exact find_one_preserved_song_path _ _ _ _ _ _ _ _ _ h
  | some e =>
    by_cases he : e.isEmpty <;>
      simp only [he, if_true, if_false, Bool.false_eq_true, ite_false, ite_true]
    · exact find_one_preserved_song_path _ _ _ _ _ _ _ _ _ h
    · simpa using h

lemma find_one_preserved_get_video (st : List Doc) (f? : Option (String → Doc))
    (fault : Bool) (k : String) (now nid : Nat) (field : String) (v : Val) (d : Doc)
    (h : find_one st field v = some d) :
    find_one (get_video_by_id_with_cache st f? fault k now nid).2.1 field v = some d := by
  unfold get_video_by_id_with_cache get_video_by_video_id
  cases hf : find_one st "video_id" (Val.str k) with
  | none => exact find_one_preserved_video_path _ _ _ _ _ _ _ _ _ h
  | some e =>
    by_cases he : e.isEmpty <;>
      simp only [he, if_true, if_false, Bool.false_eq_true, ite_false, ite_true]
    · exact find_one_preserved_video_path _ _ _ _ _ _ _ _ _ h
    · simpa using h

lemma save_song_store_shape (st : List Doc) (fault : Bool) (yid t th s : Val)
    (now nid : Nat) :
    (save_song st fault yid t th s now nid).2 = st ∨
    (save_song st fault yid t th s now nid).2 =
      st ++ [dset (song_doc yid t th s now) "_id" (Val.oid nid)] := by
  unfold save_song
  dsimp only
  cases hins : insert_one st "youtube_id" (song_doc yid t th s now) nid fault with
  | error e => exact Or.inl rfl
  | ok p =>
    obtain ⟨stored, st'⟩ := p
    obtain ⟨hs', hc⟩ := insert_one_ok_shape _ _ _ _ _ _ _ hins
    right
    dsimp only
    rw [hc, hs']

lemma save_video_store_shape (st : List Doc) (fault : Bool) (vid t th s u : Val)
    (now nid : Nat) :
    (save_video st fault vid t th s u now nid).2 = st ∨
    (save_video st fault vid t th s u now nid).2 =
      st ++ [dset (video_doc vid t th s u now) "_id" (Val.oid nid)] := by
  unfold save_video
  dsimp only
  cases hins : insert_one st "video_id" (video_doc vid t th s u now) nid fault with
  | error e => exact Or.inl rfl
  | ok p =>
    obtain ⟨stored, st'⟩ := p
    obtain ⟨hs', hc⟩ := insert_one_ok_shape _ _ _ _ _ _ _ hins
    right
    dsimp only
    rw [hc, hs']

/-! ### Claims -/

/-- C1: for every key for which a record of the kind is already present in
the store (any real Mongo store: stored documents carry an `_id`, so the
found dict is truthy), `get_track_by_youtube_id` /
`get_video_by_id_with_cache` return that existing record unchanged, leave
the store untouched, and never invoke the supplied fetcher (the fetch
count is 0 and the result does not depend on the fetcher `f`). -/
theorem C1_present_key_returns_existing_without_fetch :
    (∀ (st : List Doc) (f : String → Doc) (fault : Bool) (k : String)
        (now nid : Nat) (d : Doc), MongoWF st →
        find_one st "youtube_id" (Val.str k) = some d →
        get_track_by_youtube_id st (some f) fault k now nid = (.ok (some d), st, 0)) ∧
    (∀ (st : List Doc) (f : String → Doc) (fault : Bool) (k : String)
        (now nid : Nat) (d : Doc), MongoWF st →
        find_one st "video_id" (Val.str k) = some d →
        get_video_by_id_with_cache st (some f) fault k now nid = (.ok (some d), st, 0)) := by
  constructor
  · intro st f fault k now nid d hwf h
    have h' : st.find? (fun e => decide (dget e "youtube_id" = some (Val.str k))) = some d := h
    have hid := hwf d (List.mem_of_find?_eq_some h')
    have hne : d.isEmpty = false := by
      cases d with
      | nil => simp [dget] at hid
      | cons a l => rfl
    exact get_track_found st (some f) fault k now nid d h hne
  · intro st f fault k now nid d hwf h
    have h' : st.find? (fun e => decide (dget e "video_id" = some (Val.str k))) = some d := h
    have hid := hwf d (List.mem_of_find?_eq_some h')
    have hne : d.isEmpty = false := by
      cases d with
      | nil => simp [dget] at hid
      | cons a l => rfl
    exact get_video_found st (some f) fault k now nid d h hne

/-- C1 witness: a store holding one song (resp. one video) record; the
getter returns it, the store is unchanged, the fetch count is 0. -/
theorem C1_witness :
    get_track_by_youtube_id [[("_id", Val.oid 1), ("youtube_id", Val.str "a")]]
        (some (fun _ => [])) true "a" 0 2 =
      (.ok (some [("_id", Val.oid 1), ("youtube_id", Val.str "a")]),
       [[("_id", Val.oid 1), ("youtube_id", Val.str "a")]], 0) ∧
    get_video_by_id_with_cache [[("_id", Val.oid 1), ("video_id", Val.str "v")]]
        (some (fun _ => [])) true "v" 0 2 =
      (.ok (some [("_id", Val.oid 1), ("video_id", Val.str "v")]),
       [[("_id", Val.oid 1), ("video_id", Val.str "v")]], 0) :=
  ⟨C1_present_key_returns_existing_without_fetch.1
      [[("_id", Val.oid 1), ("youtube_id", Val.str "a")]] (fun _ => []) true "a" 0 2
      [("_id", Val.oid 1), ("youtube_id", Val.str "a")] (by decide) (by decide),
   C1_present_key_returns_existing_without_fetch.2
      [[("_id", Val.oid 1), ("video_id", Val.str "v")]] (fun _ => []) true "v" 0 2
      [("_id", Val.oid 1), ("video_id", Val.str "v")] (by decide) (by decide)⟩

/-- C2 evaluation: the code contradicts the claim.  On a non-duplicate
store failure (`fault = true`, empty store, so no uniqueness conflict is
possible) `save_song` / `save_video` do NOT propagate any error: the bare
`except` swallows it, the re-read misses, and the call returns Python
`None` normally. -/
theorem C2_nonduplicate_failure_is_swallowed_not_propagated :
    save_song [] true (Val.str "k") (Val.str "T") (Val.str "th") (Val.str "S") 0 1 =
      (Option.none, []) ∧
    save_video [] true (Val.str "k") (Val.str "T") (Val.str "th") (Val.str "S")
        (Val.str "u") 0 1 = (Option.none, []) := by
  exact ⟨rfl, rfl⟩

/-- C3: when the insert hits the uniqueness conflict (no exogenous fault,
a record with the same key already stored), `save_song` / `save_video`
re-read the store by the same key, return the record found there, leave
the store unchanged, and surface no error. -/
theorem C3_conflict_recovered_by_reread :
    (∀ (st : List Doc) (yid t th s : Val) (now nid : Nat) (d : Doc),
        find_one st "youtube_id" yid = some d →
        save_song st false yid t th s now nid = (some d, st)) ∧
    (∀ (st : List Doc) (vid t th s u : Val) (now nid : Nat) (d : Doc),
        find_one st "video_id" vid = some d →
        save_video st false vid t th s u now nid = (some d, st)) :=
  ⟨fun st yid t th s now nid d h => save_song_dup st yid t th s now nid d h,
   fun st vid t th s u now nid d h => save_video_dup st vid t th s u now nid d h⟩

/-- C3 witness: inserting over an existing key returns the stored record
and leaves the store as it was. -/
theorem C3_witness :
    save_song [[("youtube_id", Val.str "k"), ("_id", Val.oid 1)]] false
        (Val.str "k") (Val.str "T") (Val.str "th") (Val.str "S") 9 2 =
      (some [("youtube_id", Val.str "k"), ("_id", Val.oid 1)],
       [[("youtube_id", Val.str "k"), ("_id", Val.oid 1)]]) ∧
    save_video [[("video_id", Val.str "v"), ("_id", Val.oid 1)]] false
        (Val.str "v") (Val.str "T") (Val.str "th") (Val.str "S") (Val.str "u") 9 2 =
      (some [("video_id", Val.str "v"), ("_id", Val.oid 1)],
       [[("video_id", Val.str "v"), ("_id", Val.oid 1)]]) :=
  ⟨C3_conflict_recovered_by_reread.1 [[("youtube_id", Val.str "k"), ("_id", Val.oid 1)]]
      (Val.str "k") (Val.str "T") (Val.str "th") (Val.str "S") 9 2
      [("youtube_id", Val.str "k"), ("_id", Val.oid 1)] (by decide),
   C3_conflict_recovered_by_reread.2 [[("video_id", Val.str "v"), ("_id", Val.oid 1)]]
      (Val.str "v") (Val.str "T") (Val.str "th") (Val.str "S") (Val.str "u") 9 2
      [("video_id", Val.str "v"), ("_id", Val.oid 1)] (by decide)⟩

/-- C4: for every key with no matching record, calling the getter with no
fetcher raises `LookupError` (the module's `NotFoundError`) and leaves the
store unchanged. -/
theorem C4_absent_without_fetcher_raises :
    (∀ (st : List Doc) (fault : Bool) (k : String) (now nid : Nat),
        find_one st "youtube_id" (Val.str k) = Option.none →
        get_track_by_youtube_id st Option.none fault k now nid =
          (.error (.lookupError "Song not found in DB and no fetch_if_missing provided"),
           st, 0)) ∧
    (∀ (st : List Doc) (fault : Bool) (k : String) (now nid : Nat),
        find_one st "video_id" (Val.str k) = Option.none →
        get_video_by_id_with_cache st Option.none fault k now nid =
          (.error (.lookupError "Video not found in DB and no fetch_if_missing provided"),
           st, 0)) := by
  constructor
  · intro st fault k now nid h
    rw [get_track_missing st Option.none fault k now nid h]
    rfl
  · intro st fault k now nid h
    rw [get_video_missing st Option.none fault k now nid h]
    rfl

/-- C4 witness: an empty store, no fetcher — both getters raise. -/
theorem C4_witness :
    get_track_by_youtube_id [] Option.none false "x" 0 1 =
      (.error (.lookupError "Song not found in DB and no fetch_if_missing provided"),
       [], 0) ∧
    get_video_by_id_with_cache [] Option.none false "x" 0 1 =
      (.error (.lookupError "Video not found in DB and no fetch_if_missing provided"),
       [], 0) :=
  ⟨C4_absent_without_fetcher_raises.1 [] false "x" 0 1 (by decide),
   C4_absent_without_fetcher_raises.2 [] false "x" 0 1 (by decide)⟩

/-- C5: for every absent song key, a fetcher returning the empty dict `{}`
makes `get_track_by_youtube_id` insert the fully-defaulted record
`{title:"Unknown Title", thumbnail:"", singer:"Unknown", type:"song"}`
with the key field equal to the input key (plus the store-assigned `_id`
and `saved_at:<now>`). -/
theorem C5_empty_fetch_result_inserts_defaults :
    ∀ (st : List Doc) (k : String) (now nid : Nat),
      find_one st "youtube_id" (Val.str k) = Option.none →
      ∃ d : Doc,
        get_track_by_youtube_id st (some (fun _ => ([] : Doc))) false k now nid =
          (.ok (some d), st ++ [d], 1) ∧
        dget d "youtube_id" = some (Val.str k) ∧
        dget d "title" = some (Val.str "Unknown Title") ∧
        dget d "thumbnail" = some (Val.str "") ∧
        dget d "singer" = some (Val.str "Unknown") ∧
        dget d "type" = some (Val.str "song") := by
  intro st k now nid h
  refine ⟨dset (song_doc (Val.str k) (Val.str "Unknown Title") (Val.str "")
      (Val.str "Unknown") now) "_id" (Val.oid nid), ?_, ?_, ?_, ?_, ?_, ?_⟩
  · rw [get_track_missing _ _ _ _ _ _ h]
    unfold song_fetch_path
    dsimp only
    simp only [norm_key, norm_title, norm_thumbnail, norm_singer, dget, dgetD,
      pyOr, Option.getD]
    rw [save_song_ok st (Val.str k) (Val.str "Unknown Title") (Val.str "")
      (Val.str "Unknown") now nid h]
  · simp [song_doc, dset, dget]
  · simp [song_doc, dset, dget]
  · simp [song_doc, dset, dget]
  · simp [song_doc, dset, dget]
  · simp [song_doc, dset, dget]

/-- C5 witness: empty store, key "k", fetcher returning `{}`. -/
theorem C5_witness :
    ∃ d : Doc,
      get_track_by_youtube_id [] (some (fun _ => ([] : Doc))) false "k" 3 1 =
        (.ok (some d), [] ++ [d], 1) ∧
      dget d "youtube_id" = some (Val.str "k") ∧
      dget d "title" = some (Val.str "Unknown Title") ∧
      dget d "thumbnail" = some (Val.str "") ∧
      dget d "singer" = some (Val.str "Unknown") ∧
      dget d "type" = some (Val.str "song") :=
  C5_empty_fetch_result_inserts_defaults [] "k" 3 1 (by decide)

/-- C6 counterexample: the fetcher's raw result HAS the key field
`youtube_id`, with value `""`; the claim says the normalized record keeps
that value, but the code's `fetched.get("youtube_id") or youtube_id`
treats the falsy `""` as missing and stores the input key `"abc"`
instead. -/
theorem C6_cex_present_empty_key_field_ignored :
    dget [("youtube_id", Val.str "")] "youtube_id" = some (Val.str "") ∧
    get_track_by_youtube_id [] (some (fun _ => [("youtube_id", Val.str "")]))
        false "abc" 7 1 =
      (.ok (some [("youtube_id", Val.str "abc"), ("title", Val.str "Unknown Title"),
         ("thumbnail", Val.str ""), ("singer", Val.str "Unknown"),
         ("type", Val.str "song"), ("saved_at", Val.time 7), ("_id", Val.oid 1)]),
       [[("youtube_id", Val.str "abc"), ("title", Val.str "Unknown Title"),
         ("thumbnail", Val.str ""), ("singer", Val.str "Unknown"),
         ("type", Val.str "song"), ("saved_at", Val.time 7), ("_id", Val.oid 1)]],
       1) ∧
    (Val.str "abc" ≠ Val.str "") := by
  refine ⟨rfl, rfl, by decide⟩

/-- C6 amended: normalization sets the record's key field to the raw
result's key field only when it is present with a truthy value (e.g. a
non-empty string); it falls back to the input key when the field is
absent OR present with a falsy value (empty string or None).  `norm_key`
is exactly the `fetched.get(<key field>) or <input key>` expression of
`get_track_by_youtube_id` / `get_video_by_id_with_cache`. -/
theorem C6_amended_key_field_truthy_or_fallback :
    ∀ (fetched : Doc) (field fallback : String),
      (dget fetched field = Option.none →
        norm_key fetched field fallback = Val.str fallback) ∧
      (∀ v : Val, dget fetched field = some v → truthy v = true →
        norm_key fetched field fallback = v) ∧
      (∀ v : Val, dget fetched field = some v → truthy v = false →
        norm_key fetched field fallback = Val.str fallback) := by
  intro fetched field fallback
  refine ⟨fun h => ?_, fun v h ht => ?_, fun v h ht => ?_⟩
  · simp [norm_key, pyOr, h]
  · simp [norm_key, pyOr, h, ht]
  · simp [norm_key, pyOr, h, ht]

/-- C6 amended witness: a present-but-empty raw key field falls back to
the input key; a present truthy one is kept; an absent one falls back. -/
theorem C6_amended_witness :
    norm_key [("youtube_id", Val.str "")] "youtube_id" "abc" = Val.str "abc" ∧
    norm_key [("youtube_id", Val.str "real")] "youtube_id" "abc" = Val.str "real" ∧
    norm_key [] "youtube_id" "abc" = Val.str "abc" :=
  ⟨(C6_amended_key_field_truthy_or_fallback [("youtube_id", Val.str "")]
      "youtube_id" "abc").2.2 (Val.str "") (by decide) (by decide),
   (C6_amended_key_field_truthy_or_fallback [("youtube_id", Val.str "real")]
      "youtube_id" "abc").2.1 (Val.str "real") (by decide) (by decide),
   (C6_amended_key_field_truthy_or_fallback [] "youtube_id" "abc").1 (by decide)⟩

/-- C7: the normalized singer equals the raw `"singer"` value whenever
that key is present, else the raw `"artist"` value when present, else the
literal `"Unknown"`; and the spec's worked example — fetcher returning
`{title:"Song A", artist:"Artist X"}` for absent key `"abc123"` — stores
exactly `{youtube_id:"abc123", title:"Song A", thumbnail:"",
singer:"Artist X", type:"song", saved_at:<now>}` (plus the assigned
`_id`). -/
theorem C7_singer_defaulting_and_example :
    (∀ (fetched : Doc) (v : Val), dget fetched "singer" = some v →
      norm_singer fetched = v) ∧
    (∀ (fetched : Doc) (v : Val), dget fetched "singer" = Option.none →
      dget fetched "artist" = some v → norm_singer fetched = v) ∧
    (∀ fetched : Doc, dget fetched "singer" = Option.none →
      dget fetched "artist" = Option.none →
      norm_singer fetched = Val.str "Unknown") ∧
    get_track_by_youtube_id []
        (some (fun _ => [("title", Val.str "Song A"), ("artist", Val.str "Artist X")]))
        false "abc123" 5 1 =
      (.ok (some [("youtube_id", Val.str "abc123"), ("title", Val.str "Song A"),
         ("thumbnail", Val.str ""), ("singer", Val.str "Artist X"),
         ("type", Val.str "song"), ("saved_at", Val.time 5), ("_id", Val.oid 1)]),
       [[("youtube_id", Val.str "abc123"), ("title", Val.str "Song A"),
         ("thumbnail", Val.str ""), ("singer", Val.str "Artist X"),
         ("type", Val.str "song"), ("saved_at", Val.time 5), ("_id", Val.oid 1)]],
       1) := by
  refine ⟨?_, ?_, ?_, rfl⟩
  · intro fetched v h
    simp [norm_singer, dgetD, h]
  · intro fetched v hs ha
    simp [norm_singer, dgetD, hs, ha]
  · intro fetched hs ha
    simp [norm_singer, dgetD, hs, ha]

/-- C7 witness: concrete raw dicts for the three singer cases. -/
theorem C7_witness :
    norm_singer [("singer", Val.str "S"), ("artist", Val.str "A")] = Val.str "S" ∧
    norm_singer [("artist", Val.str "A")] = Val.str "A" ∧
    norm_singer [("title", Val.str "T")] = Val.str "Unknown" :=
  ⟨C7_singer_defaulting_and_example.1 [("singer", Val.str "S"), ("artist", Val.str "A")]
      (Val.str "S") (by decide),
   C7_singer_defaulting_and_example.2.1 [("artist", Val.str "A")] (Val.str "A")
      (by decide) (by decide),
   C7_singer_defaulting_and_example.2.2.1 [("title", Val.str "T")] (by decide)
      (by decide)⟩

/-- C8: once a record is present in a store (it is what `find_one`
returns for some filter), no operation of the module — `save_song`,
`save_video`, `get_track_by_youtube_id`, `get_video_by_id_with_cache` —
ever overwrites, mutates or deletes it: the very same document, with its
original `saved_at`, is still what `find_one` returns afterwards.  (The
plain getters `get_song_by_youtube_id` / `get_video_by_video_id` take no
store output at all.) -/
theorem C8_present_records_never_changed :
    (∀ (st : List Doc) (fault : Bool) (yid t th s : Val) (now nid : Nat)
        (field : String) (v : Val) (d : Doc),
        find_one st field v = some d →
        find_one (save_song st fault yid t th s now nid).2 field v = some d) ∧
    (∀ (st : List Doc) (fault : Bool) (vid t th s u : Val) (now nid : Nat)
        (field : String) (v : Val) (d : Doc),
        find_one st field v = some d →
        find_one (save_video st fault vid t th s u now nid).2 field v = some d) ∧
    (∀ (st : List Doc) (f? : Option (String → Doc)) (fault : Bool) (k : String)
        (now nid : Nat) (field : String) (v : Val) (d : Doc),
        find_one st field v = some d →
        find_one (get_track_by_youtube_id st f? fault k now nid).2.1 field v = some d) ∧
    (∀ (st : List Doc) (f? : Option (String → Doc)) (fault : Bool) (k : String)
        (now nid : Nat) (field : String) (v : Val) (d : Doc),
        find_one st field v = some d →
        find_one (get_video_by_id_with_cache st f? fault k now nid).2.1 field v = some d) :=
  ⟨fun st fault yid t th s now nid field v d h =>
      find_one_preserved_save_song st fault yid t th s now nid field v d h,
   fun st fault vid t th s u now nid field v d h =>
      find_one_preserved_save_video st fault vid t th s u now nid field v d h,
   fun st f? fault k now nid field v d h =>
      find_one_preserved_get_track st f? fault k now nid field v d h,
   fun st f? fault k now nid field v d h =>
      find_one_preserved_get_video st f? fault k now nid field v d h⟩

/-- C8 witness: a stored song survives a `save_song` on the same key and a
`get_track_by_youtube_id` on a fresh key; likewise for a video. -/
theorem C8_witness :
    find_one (save_song [[("youtube_id", Val.str "k"), ("_id", Val.oid 1)]] false
        (Val.str "k") (Val.str "T") (Val.str "th") (Val.str "S") 9 2).2
      "youtube_id" (Val.str "k") =
      some [("youtube_id", Val.str "k"), ("_id", Val.oid 1)] ∧
    find_one (save_video [[("video_id", Val.str "v"), ("_id", Val.oid 1)]] false
        (Val.str "v") (Val.str "T") (Val.str "th") (Val.str "S") (Val.str "u") 9 2).2
      "video_id" (Val.str "v") =
      some [("video_id", Val.str "v"), ("_id", Val.oid 1)] ∧
    find_one (get_track_by_youtube_id [[("youtube_id", Val.str "k"), ("_id", Val.oid 1)]]
        (some (fun _ => [])) false "fresh" 9 2).2.1
      "youtube_id" (Val.str "k") =
      some [("youtube_id", Val.str "k"), ("_id", Val.oid 1)] ∧
    find_one (get_video_by_id_with_cache [[("video_id", Val.str "v"), ("_id", Val.oid 1)]]
        (some (fun _ => [])) false "fresh" 9 2).2.1
      "video_id" (Val.str "v") =
      some [("video_id", Val.str "v"), ("_id", Val.oid 1)] :=
  ⟨C8_present_records_never_changed.1 [[("youtube_id", Val.str "k"), ("_id", Val.oid 1)]]
      false (Val.str "k") (Val.str "T") (Val.str "th") (Val.str "S") 9 2
      "youtube_id" (Val.str "k") [("youtube_id", Val.str "k"), ("_id", Val.oid 1)]
      (by decide),
   C8_present_records_never_changed.2.1 [[("video_id", Val.str "v"), ("_id", Val.oid 1)]]
      false (Val.str "v") (Val.str "T") (Val.str "th") (Val.str "S") (Val.str "u") 9 2
      "video_id" (Val.str "v") [("video_id", Val.str "v"), ("_id", Val.oid 1)]
      (by decide),
   C8_present_records_never_changed.2.2.1 [[("youtube_id", Val.str "k"), ("_id", Val.oid 1)]]
      (some (fun _ => [])) false "fresh" 9 2
      "youtube_id" (Val.str "k") [("youtube_id", Val.str "k"), ("_id", Val.oid 1)]
      (by decide),
   C8_present_records_never_changed.2.2.2 [[("video_id", Val.str "v"), ("_id", Val.oid 1)]]
      (some (fun _ => [])) false "fresh" 9 2
      "video_id" (Val.str "v") [("video_id", Val.str "v"), ("_id", Val.oid 1)]
      (by decide)⟩

/-- C9: when the insert raises (exogenous fault) and the subsequent
re-read by key finds no record, `save_song` / `save_video` return Python
`None` instead of a record, and `get_track_by_youtube_id` passes that
`None` through as its own (normally returned) result, despite the
declared `dict` result type. -/
theorem C9_failed_insert_empty_reread_returns_none :
    (∀ (st : List Doc) (yid t th s : Val) (now nid : Nat),
        find_one st "youtube_id" yid = Option.none →
        save_song st true yid t th s now nid = (Option.none, st)) ∧
    (∀ (st : List Doc) (vid t th s u : Val) (now nid : Nat),
        find_one st "video_id" vid = Option.none →
        save_video st true vid t th s u now nid = (Option.none, st)) ∧
    (∀ (st : List Doc) (k : String) (now nid : Nat),
        find_one st "youtube_id" (Val.str k) = Option.none →
        get_track_by_youtube_id st (some (fun _ => ([] : Doc))) true k now nid =
          (.ok Option.none, st, 1)) := by
  refine ⟨?_, ?_, ?_⟩
  · intro st yid t th s now nid h
    rw [save_song_fault, h]
  · intro st vid t th s u now nid h
    rw [save_video_fault, h]
  · intro st k now nid h
    rw [get_track_missing _ _ _ _ _ _ h]
    unfold song_fetch_path
    dsimp only
    simp only [norm_key, norm_title, norm_thumbnail, norm_singer, dget, dgetD,
      pyOr, Option.getD]
    rw [save_song_fault, h]

/-- C9 witness: empty store plus a faulting insert — both savers and the
song getter come back with `None` and no exception. -/
theorem C9_witness :
    save_song [] true (Val.str "k") (Val.str "T") (Val.str "th") (Val.str "S") 0 1 =
      (Option.none, []) ∧
    save_video [] true (Val.str "v") (Val.str "T") (Val.str "th") (Val.str "S")
        (Val.str "u") 0 1 = (Option.none, []) ∧
    get_track_by_youtube_id [] (some (fun _ => ([] : Doc))) true "k" 0 1 =
      (.ok Option.none, [], 1) :=
  ⟨C9_failed_insert_empty_reread_returns_none.1 [] (Val.str "k") (Val.str "T")
      (Val.str "th") (Val.str "S") 0 1 (by decide),
   C9_failed_insert_empty_reread_returns_none.2.1 [] (Val.str "v") (Val.str "T")
      (Val.str "th") (Val.str "S") (Val.str "u") 0 1 (by decide),
   C9_failed_insert_empty_reread_returns_none.2.2 [] "k" 0 1 (by decide)⟩

/-- C10: whatever the fetcher returned, every document that `save_song`
adds to the store has `type = "song"`, and every document `save_video`
adds has `type = "video"`: any document in the output store is either an
old one or carries the fixed type literal. -/
theorem C10_inserted_docs_have_fixed_type :
    (∀ (st : List Doc) (fault : Bool) (yid t th s : Val) (now nid : Nat) (d : Doc),
        d ∈ (save_song st fault yid t th s now nid).2 →
        d ∈ st ∨ dget d "type" = some (Val.str "song")) ∧
    (∀ (st : List Doc) (fault : Bool) (vid t th s u : Val) (now nid : Nat) (d : Doc),
        d ∈ (save_video st fault vid t th s u now nid).2 →
        d ∈ st ∨ dget d "type" = some (Val.str "video")) := by
  constructor
  · intro st fault yid t th s now nid d hd
    rcases save_song_store_shape st fault yid t th s now nid with heq | heq
    · rw [heq] at hd
      exact Or.inl hd
    · rw [heq] at hd
      rcases List.mem_append.mp hd with hd | hd
      · exact Or.inl hd
      · right
        rw [List.mem_singleton.mp hd]
        simp [song_doc, dset, dget]
  · intro st fault vid t th s u now nid d hd
    rcases save_video_store_shape st fault vid t th s u now nid with heq | heq
    · rw [heq] at hd
      exact Or.inl hd
    · rw [heq] at hd
      rcases List.mem_append.mp hd with hd | hd
      · exact Or.inl hd
      · right
        rw [List.mem_singleton.mp hd]
        simp [video_doc, dset, dget]

/-- C10 witness: the single document a successful `save_song` /
`save_video` adds to an empty store carries the fixed type literal. -/
theorem C10_witness :
    ([("youtube_id", Val.str "k"), ("title", Val.str "T"),
      ("thumbnail", Val.str "th"), ("singer", Val.str "S"),
      ("type", Val.str "song"), ("saved_at", Val.time 0), ("_id", Val.oid 1)] ∈
        ([] : List Doc) ∨
      dget [("youtube_id", Val.str "k"), ("title", Val.str "T"),
        ("thumbnail", Val.str "th"), ("singer", Val.str "S"),
        ("type", Val.str "song"), ("saved_at", Val.time 0), ("_id", Val.oid 1)]
        "type" = some (Val.str "song")) ∧
    ([("video_id", Val.str "v"), ("title", Val.str "T"),
      ("thumbnail", Val.str "th"), ("singer", Val.str "S"), ("url", Val.str "u"),
      ("type", Val.str "video"), ("saved_at", Val.time 0), ("_id", Val.oid 1)] ∈
        ([] : List Doc) ∨
      dget [("video_id", Val.str "v"), ("title", Val.str "T"),
        ("thumbnail", Val.str "th"), ("singer", Val.str "S"), ("url", Val.str "u"),
        ("type", Val.str "video"), ("saved_at", Val.time 0), ("_id", Val.oid 1)]
        "type" = some (Val.str "video")) :=
  ⟨C10_inserted_docs_have_fixed_type.1 [] false (Val.str "k") (Val.str "T")
      (Val.str "th") (Val.str "S") 0 1
      [("youtube_id", Val.str "k"), ("title", Val.str "T"),
       ("thumbnail", Val.str "th"), ("singer", Val.str "S"),
       ("type", Val.str "song"), ("saved_at", Val.time 0), ("_id", Val.oid 1)]
      (by decide),
   C10_inserted_docs_have_fixed_type.2 [] false (Val.str "v") (Val.str "T")
      (Val.str "th") (Val.str "S") (Val.str "u") 0 1
      [("video_id", Val.str "v"), ("title", Val.str "T"),
       ("thumbnail", Val.str "th"), ("singer", Val.str "S"), ("url", Val.str "u"),
       ("type", Val.str "video"), ("saved_at", Val.time 0), ("_id", Val.oid 1)]
      (by decide)⟩

end MangoSaver
